import Mathlib

/-!
Verification development for the coin worker service
(services/worker/src: worker.py, db.py, collectors/base.py, collectors/ebay.py).

The Python sources are shallowly embedded: wall-clock instants and fractional
token counts (Python floats) are modelled as rationals, integer quantities as
Int/Nat, strings as Lean strings, fallible calls as Except, and the database
side effects performed by one job-processing run as an explicit effect trace.
-/

namespace Coin

/-! ## String helpers (Python `in`, `lower()`, `strip()` on ASCII data) -/

/-- Model of Python list/string truthiness for an optional string:
`None` and the empty string are falsy. -/
def truthyStr : Option String → Option String
  | none => none
  | some s => if s = "" then none else some s

/-- Python `str.lower()` on the character-list model of strings. -/
def pyLower (s : String) : String :=
  ⟨s.data.map Char.toLower⟩

/-- Python `str.upper()` on the character-list model of strings. -/
def pyUpper (s : String) : String :=
  ⟨s.data.map Char.toUpper⟩

/-- ASCII whitespace test used by the trim and split models. -/
def isSpaceChar (c : Char) : Bool :=
  c = ' ' ∨ c = '\t' ∨ c = '\n' ∨ c = '\r'

/-- Python `str.strip()`: drop leading and trailing whitespace. -/
def pyStrip (s : String) : String :=
  ⟨((s.data.dropWhile isSpaceChar).reverse.dropWhile isSpaceChar).reverse⟩

/-- Splitting of a character list at every separator character, keeping
empty segments (the semantics of `str.split(sep)` for a single-character
separator). -/
def splitCharsBy (p : Char → Bool) : List Char → List (List Char)
  | [] => [[]]
  | c :: cs =>
    match splitCharsBy p cs with
    | [] => [[]]
    | w :: ws => if p c then [] :: w :: ws else (c :: w) :: ws

/-- Word splitting on strings. -/
def splitStr (p : Char → Bool) (s : String) : List String :=
  (splitCharsBy p s.data).map (fun w => ⟨w⟩)

/-- Joining of strings with a separator (Python `sep.join(parts)`). -/
def joinWith (sep : String) : List String → String
  | [] => ""
  | [x] => x
  | x :: y :: rest => ⟨x.data ++ sep.data ++ (joinWith sep (y :: rest)).data⟩

/-- Test whether the second list is a block starting the first list
(character-wise equality). -/
def leadsWith : List Char → List Char → Bool
  | [], _ => true
  | _ :: _, [] => false
  | a :: as, b :: bs => a == b && leadsWith as bs

/-- Test whether `needle` occurs contiguously inside `hay`; this is the model
of the Python substring operator `needle in hay`. -/
def hasSubList (needle : List Char) : List Char → Bool
  | [] => leadsWith needle []
  | h :: t => leadsWith needle (h :: t) || hasSubList needle t

/-- Python `needle in hay` on strings. -/
def strContains (hay needle : String) : Bool :=
  hasSubList needle.toList hay.toList

/-- Model of Python `int(x)` on a float value: truncation toward zero. -/
def pyTrunc (q : ℚ) : ℤ :=
  if 0 ≤ q then ⌊q⌋ else -⌊-q⌋

/-! ## RateLimiter (collectors/base.py lines 16-62)

Token bucket; `tokens` and timestamps are Python floats, modelled as
rationals.  `minInterval` is `60.0 / rate_per_minute` computed at
construction time. -/

structure RateLimiter where
  ratePerMinute : ℕ
  tokens : ℚ
  lastRefill : ℚ
  minInterval : ℚ
deriving Repr, DecidableEq

/-- Constructor of `RateLimiter` (base.py lines 19-28): the bucket starts
full and `last_refill` is the construction instant. -/
def RateLimiter.init (r : ℕ) (now : ℚ) : RateLimiter :=
  { ratePerMinute := r, tokens := r, lastRefill := now, minInterval := 60 / (r : ℚ) }

/-- Refill step of `RateLimiter.acquire` (base.py lines 36-47): a full reset
when at least 60 seconds elapsed, otherwise a continuous refill clamped at
capacity; `last_refill` is always moved to `now`. -/
def RateLimiter.refillAt (l : RateLimiter) (now : ℚ) : RateLimiter :=
  if 60 ≤ now - l.lastRefill then
    { l with tokens := l.ratePerMinute, lastRefill := now }
  else
    { l with
      tokens := min (l.ratePerMinute : ℚ)
        (l.tokens + (now - l.lastRefill) / 60 * l.ratePerMinute),
      lastRefill := now }

/-- Model of `RateLimiter.acquire` (base.py lines 30-53): refill, then spend
one token if at least 1.0 is available. -/
def RateLimiter.acquire (l : RateLimiter) (now : ℚ) : Bool × RateLimiter :=
  if 1 ≤ (l.refillAt now).tokens then
    (true, { l.refillAt now with tokens := (l.refillAt now).tokens - 1 })
  else (false, l.refillAt now)

/-- Model of `RateLimiter.wait_if_needed` (base.py lines 55-62): on a failed
acquire, sleep `min_interval - (time.time() - last_refill)` and retry once.
The second `time.time()` read is modelled as the same instant `now`, so the
retry happens at `now + min_interval`. -/
def RateLimiter.waitIfNeeded (l : RateLimiter) (now : ℚ) : RateLimiter :=
  match l.acquire now with
  | (true, l1) => l1
  | (false, l1) =>
    let waitTime := l.minInterval - (now - l1.lastRefill)
    if 0 < waitTime then (l1.acquire (now + waitTime)).2 else (l1.acquire now).2

/-- Run a sequence of `acquire` calls at the given instants, returning the
call outcomes paired with their instants and the final limiter state. -/
def RateLimiter.run (l : RateLimiter) : List ℚ → List (ℚ × Bool) × RateLimiter
  | [] => ([], l)
  | t :: ts =>
    let (ok, l1) := l.acquire t
    let (rest, lf) := l1.run ts
    ((t, ok) :: rest, lf)

/-- Intermediate limiter states produced by a sequence of `acquire` calls. -/
def RateLimiter.runStates (l : RateLimiter) : List ℚ → List RateLimiter
  | [] => []
  | t :: ts =>
    let l1 := (l.acquire t).2
    l1 :: l1.runStates ts

/-- Number of successful acquire calls in a run transcript. -/
def countSucc (xs : List (ℚ × Bool)) : ℕ :=
  (xs.filter (fun x => x.2)).length

/-- Instants are non-decreasing starting from a given previous instant
(the wall clock never runs backwards). -/
def timesMono : ℚ → List ℚ → Prop
  | _, [] => True
  | prev, t :: ts => prev ≤ t ∧ timesMono t ts

instance timesMono.dec : ∀ (p : ℚ) (ts : List ℚ), Decidable (timesMono p ts)
  | _, [] => .isTrue trivial
  | _, t :: ts =>
    have : Decidable (timesMono t ts) := timesMono.dec t ts
    instDecidableAnd

/-! ## Settings (config.py) -/

/-- Relevant part of `Settings` (config.py): cache flag, cache TTL and the
environment-level eBay app id fallback. -/
structure Settings where
  cacheEnabled : Bool
  cacheTtlSeconds : ℤ
  ebayAppId : Option String
deriving Repr, DecidableEq

/-- Default configuration values from config.py lines 25, 33-34. -/
def defaultSettings : Settings :=
  { cacheEnabled := true, cacheTtlSeconds := 3600, ebayAppId := none }

/-! ## Cache (collectors/base.py lines 65-153)

The SQLite table has `key` as primary key, so there is at most one row per
key; `set` uses INSERT OR REPLACE.  Values are kept generic (the Python code
stores JSON text; serialization is the identity here). -/

structure Cache (α : Type) where
  entries : List (String × α × ℚ)
deriving Repr, DecidableEq

/-- Lookup of the first row for `key` whose expiry lies strictly in the
future (the SQL `WHERE key = ? AND expires_at > ?`). -/
def lookupValid (key : String) (now : ℚ) : List (String × α × ℚ) → Option α
  | [] => none
  | e :: es => if key = e.1 ∧ now < e.2.2 then some e.2.1 else lookupValid key now es

/-- Model of `Cache.get` (base.py lines 92-118): absent when caching is
disabled; otherwise the row for `key` with `expires_at > now`, if any. -/
def Cache.get (cfg : Settings) (c : Cache α) (key : String) (now : ℚ) : Option α :=
  if cfg.cacheEnabled = false then none
  else lookupValid key now c.entries

/-- Model of `Cache.set` (base.py lines 120-143): a no-op when caching is
disabled; otherwise INSERT OR REPLACE with absolute expiry `now + ttl`.
The effective TTL is `ttl_seconds or settings.cache_ttl_seconds`, so both a
missing argument and an argument of `0` (falsy in Python) select the
configured default. -/
def Cache.set (cfg : Settings) (c : Cache α) (key : String) (v : α)
    (ttlSeconds : Option ℤ) (now : ℚ) : Cache α :=
  if cfg.cacheEnabled = false then c
  else
    let ttl : ℤ :=
      match ttlSeconds with
      | none => cfg.cacheTtlSeconds
      | some t => if t = 0 then cfg.cacheTtlSeconds else t
    ⟨(key, v, now + (ttl : ℚ)) :: c.entries.filter (fun e => key ≠ e.1)⟩

/-- Model of `Cache.clear_expired` (base.py lines 145-153): delete every row
with `expires_at <= now`. -/
def Cache.clearExpired (c : Cache α) (now : ℚ) : Cache α :=
  ⟨c.entries.filter (fun e => now < e.2.2)⟩

/-! ## Source rows and the circuit breaker
(db.py lines 319-429, collectors/base.py lines 192-236) -/

/-- Row of the `sources` table, restricted to the fields the worker reads.
`appId` is the `app_id` entry of the free-form `config` mapping. -/
structure Source where
  id : String
  name : String := ""
  adapterType : String
  enabled : Bool
  rateLimitPerMinute : ℕ := 60
  failureStreak : ℕ := 0
  pausedUntil : Option ℚ := none
  lastSuccessAt : Option ℚ := none
  lastFailureAt : Option ℚ := none
  appId : Option String := none
deriving Repr, DecidableEq

/-- Model of `update_source_stats` (db.py lines 319-356): a success resets
the failure streak to 0 and stamps `last_success_at`; a failure increments
the streak and stamps `last_failure_at`.  Neither branch touches
`paused_until`. -/
def updateSourceStats (s : Source) (success : Bool) (now : ℚ) : Source :=
  if success then { s with lastSuccessAt := some now, failureStreak := 0 }
  else { s with lastFailureAt := some now, failureStreak := s.failureStreak + 1 }

/-- Circuit breaker threshold from `BaseCollector.__init__` (base.py line 169). -/
def circuitBreakerFailureThreshold : ℕ := 5

/-- Circuit breaker cooldown in seconds from `BaseCollector.__init__`
(base.py line 170). -/
def circuitBreakerCooldownSeconds : ℚ := 300

/-- Model of `BaseCollector._update_circuit_breaker` acting on one source
row (base.py lines 204-236): update the stats, and on a failure that leaves
the streak at or above the threshold set `paused_until = now + cooldown`. -/
def updateCircuitBreakerRow (s : Source) (success : Bool) (now : ℚ) : Source :=
  let s1 := updateSourceStats s success now
  if success = false ∧ circuitBreakerFailureThreshold ≤ s1.failureStreak then
    { s1 with pausedUntil := some (now + circuitBreakerCooldownSeconds) }
  else s1

/-- Availability of one source row at an instant, per
`check_source_available` (db.py lines 359-397): enabled, and any
`paused_until` is not in the future. -/
def Source.available (s : Source) (now : ℚ) : Bool :=
  s.enabled && (match s.pausedUntil with
                | none => true
                | some p => !(now < p))

/-- Model of `check_source_available` (db.py lines 359-397) over an optional
row: a missing row is unavailable. -/
def checkSourceAvailable (row : Option Source) (now : ℚ) : Bool :=
  match row with
  | none => false
  | some s => s.available now

/-- Model of `pause_source` (db.py lines 416-429) acting on the row:
set `paused_until = now + seconds` and stamp `last_failure_at`. -/
def pauseSourceRow (s : Source) (seconds : ℤ) (now : ℚ) : Source :=
  { s with pausedUntil := some (now + (seconds : ℚ)), lastFailureAt := some now }

/-! ## eBay collector (collectors/ebay.py) -/

/-- Query parameters handed to the collector (worker.py lines 174-194).
Missing Python dict entries are `none`. -/
structure QueryParams where
  year : Option ℤ := none
  mintmark : Option String := none
  denomination : Option String := none
  series : Option String := none
  title : Option String := none
  intakeId : Option String := none
  sourceId : Option String := none
  jobId : Option String := none
  keywordsInclude : List String := []
  keywordsExclude : List String := []
deriving Repr, DecidableEq

/-- Raw eBay item as consumed by `_collect_impl` (ebay.py lines 379-432).
`priceValue` is the parsed `sellingStatus.currentPrice.value`; a missing or
unparsable price string is `none`. -/
structure EbayItem where
  itemId : Option String := none
  title : String := ""
  viewItemURL : String := ""
  priceValue : Option ℚ := none
  endTime : Option String := none
deriving Repr, DecidableEq

/-- Normalized price point row as built by `_collect_impl`
(ebay.py lines 434-449). -/
structure PricePoint where
  sourceId : Option String := none
  intakeId : Option String := none
  jobId : Option String := none
  priceCents : ℤ := 0
  priceType : String := "sold"
  listingUrl : String := ""
  listingTitle : String := ""
  listingDate : Option String := none
  observedAt : Option String := none
  matchStrength : ℚ := 1
  externalId : Option String := none
  dedupeKey : String := ""
  filteredOut : Bool := false
deriving Repr, DecidableEq

/-- Model of `EbayCollector._filter_junk_listings` (ebay.py lines 164-201):
with no keywords the items pass through; otherwise the keywords are
re-normalized (falsy entries dropped, then trimmed and lower-cased) and an
item is kept exactly when no normalized keyword is a substring of its
lower-cased title. -/
def filterJunkListings (items : List EbayItem) (excludeKeywords : List String) :
    List EbayItem :=
  if excludeKeywords = [] then items
  else
    let excludeNormalized :=
      (excludeKeywords.filter (fun k => k ≠ "")).map (fun k => pyLower (pyStrip k))
    if excludeNormalized = [] then items
    else
      items.filter (fun item =>
        !(excludeNormalized.any (fun kw => strContains (pyLower item.title) kw)))

/-- Denomination synonym table of `_compute_match_strength`
(ebay.py lines 133-140). -/
def denomTokens (d : String) : Option (List String) :=
  if d = "penny" then some ["penny", "cent", "1 cent"]
  else if d = "nickel" then some ["nickel", "5 cent"]
  else if d = "dime" then some ["dime", "10 cent"]
  else if d = "quarter" then some ["quarter", "25 cent"]
  else if d = "half_dollar" then some ["half dollar", "half", "50 cent"]
  else if d = "dollar" then some ["dollar", "1 dollar"]
  else none

/-- Python truthiness for the optional integer `year` (0 is falsy). -/
def truthyInt : Option ℤ → Option ℤ
  | none => none
  | some z => if z = 0 then none else some z

/-- Model of `EbayCollector._compute_match_strength` (ebay.py lines 97-162):
token overlap between query attributes and the lower-cased listing title;
with zero candidate tokens the neutral score is 1/2.  Python
`series.split()` is modelled as splitting on spaces; words of length at
most 3 are skipped either way. -/
def computeMatchStrength (listingTitle : String) (qp : QueryParams) : ℚ :=
  let titleLower := pyLower listingTitle
  let yearCounts : ℕ × ℕ :=
    match truthyInt qp.year with
    | none => (0, 0)
    | some y => (1, if strContains titleLower (toString y) then 1 else 0)
  let mintCounts : ℕ × ℕ :=
    match truthyStr qp.mintmark with
    | none => (0, 0)
    | some m =>
      (1, if strContains (pyUpper titleLower) (pyUpper m) then 1 else 0)
  let denomCounts : ℕ × ℕ :=
    match truthyStr qp.denomination with
    | none => (0, 0)
    | some d =>
      match denomTokens d with
      | none => (0, 0)
      | some toks => (1, if toks.any (fun tk => strContains titleLower tk) then 1 else 0)
  let seriesWords : List String :=
    match truthyStr qp.series with
    | none => []
    | some s => (splitStr isSpaceChar (pyLower s)).filter (fun w => 3 < w.length)
  let seriesTotal := seriesWords.length
  let seriesMatched := (seriesWords.filter (fun w => strContains titleLower w)).length
  let total := yearCounts.1 + mintCounts.1 + denomCounts.1 + seriesTotal
  let matched := yearCounts.2 + mintCounts.2 + denomCounts.2 + seriesMatched
  if total = 0 then 1 / 2 else (matched : ℚ) / (total : ℚ)

/-- Model of `EbayCollector._normalize_url` (ebay.py lines 203-216): drop
the query string and fragment, trim, lower-case. -/
def normalizeUrl (url : String) : String :=
  if url = "" then ""
  else
    let noQuery : String := ⟨url.data.takeWhile (fun c => c ≠ '?')⟩
    let noFrag : String := ⟨noQuery.data.takeWhile (fun c => c ≠ '#')⟩
    pyLower (pyStrip noFrag)

/-- Model of `EbayCollector._normalize_title` (ebay.py lines 218-231):
lower-case and collapse whitespace runs to single spaces. -/
def normalizeTitle (title : String) : String :=
  if title = "" then ""
  else
    joinWith " "
      ((splitStr isSpaceChar (pyLower title)).filter (fun w => w ≠ ""))

/-- Day bucket of an ISO timestamp per `_generate_dedupe_key`
(ebay.py lines 267-276): the YYYY-MM-DD part of a valid ISO string, or
`unknown`.  Valid ISO strings are modelled as strings of length at least 10
whose first ten characters form the date. -/
def dateBucket : Option String → String
  | none => "unknown"
  | some s => if 10 ≤ s.data.length then ⟨s.data.take 10⟩ else "unknown"

/-- Model of `EbayCollector._generate_dedupe_key` (ebay.py lines 233-282):
an external id is used directly; otherwise a truncated digest of the
normalized fields.  The SHA-256 digest is an external primitive and is
passed in as `hashHex`. -/
def generateDedupeKey (hashHex : String → String) (externalId : Option String)
    (listingUrl listingTitle : String) (priceCents : ℤ)
    (observedAt : Option String) (priceType : String) : String :=
  match truthyStr externalId with
  | some ext => "ext_" ++ ext
  | none =>
    let hashInput :=
      normalizeUrl listingUrl ++ "|" ++ normalizeTitle listingTitle ++ "|" ++
      toString priceCents ++ "|" ++ dateBucket observedAt ++ "|" ++ priceType
    "hash_" ++ hashHex hashInput

/-- Model of `EbayCollector._normalize_price` (ebay.py lines 284-301) on an
already-parsed price value: convert to integer cents, truncating as Python
`int()` does. -/
def normalizePrice (priceValue : ℚ) : ℤ :=
  pyTrunc (priceValue * 100)

/-- Conversion of one raw item to a price point, per the loop of
`_collect_impl` (ebay.py lines 392-451): items with a falsy price value or
falsy cent amount are skipped. -/
def itemToPricePoint (hashHex : String → String) (qp : QueryParams)
    (item : EbayItem) : Option PricePoint :=
  match item.priceValue with
  | none => none
  | some v =>
    if v = 0 then none
    else
      let cents := normalizePrice v
      if cents = 0 then none
      else
        let ms := computeMatchStrength item.title qp
        some
          { sourceId := qp.sourceId
            intakeId := qp.intakeId
            jobId := qp.jobId
            priceCents := cents
            priceType := "sold"
            listingUrl := item.viewItemURL
            listingTitle := item.title
            listingDate := item.endTime
            observedAt := item.endTime
            matchStrength := ms
            externalId := item.itemId
            dedupeKey := generateDedupeKey hashHex item.itemId item.viewItemURL
              item.title cents item.endTime "sold"
            filteredOut := false }

/-- Exceptions visible to the worker.  `ebayRateLimit` models the
`EbayRateLimitError` class, which worker.py line 16 imports from
`src.collectors.ebay` although no file under src defines it; it is modelled
from the spec as the typed provider rate-limit signal. -/
inductive PyExc
  | generic (msg : String)
  | ebayRateLimit (msg : String)
deriving Repr, DecidableEq

/-- Message text of an exception. -/
def PyExc.msg : PyExc → String
  | .generic m => m
  | .ebayRateLimit m => m

/-- Outcome of one eBay Finding API call: a parsed item list, or an
exception with the given message text. -/
inductive ApiOutcome
  | ok (items : List EbayItem)
  | err (msg : String)
deriving Repr, DecidableEq

/-- Provider behaviour for one collection: the outcome of the primary
`findCompletedItems` call and the outcome of the `findItemsAdvanced`
fallback call, should it be made. -/
structure FetchEnv where
  primary : ApiOutcome
  fallback : ApiOutcome
deriving Repr, DecidableEq

/-- Authentication-error markers used inside `_collect_impl`
(ebay.py lines 353 and 372). -/
def ebayAuthMarkers (s : String) : Bool :=
  strContains s "Authentication failed" || strContains s "Invalid Application" ||
    strContains s "errorId: 11002"

/-- Wrapped authentication-failure message raised by `_collect_impl`
(ebay.py lines 357 and 374). -/
def ebayAuthWrap (s : String) : String :=
  "eBay API authentication failed: " ++ s ++
    ". Please check your eBay App ID in the source configuration."

/-- Body of the `try` block of `_collect_impl` (ebay.py lines 320-454):
execute the primary call; on an error carrying an authentication marker
raise a wrapped exception, otherwise attempt the fallback call and on its
failure either raise wrapped (auth marker) or re-raise the primary error.
On parsed items: filter junk listings when keywords are present, then
convert each item to a price point. -/
def collectImplTryBody (hashHex : String → String) (fetch : FetchEnv)
    (qp : QueryParams) (excludeKeywords : List String) :
    Except PyExc (List PricePoint) :=
  let convert : List EbayItem → List PricePoint := fun items =>
    let items1 := if excludeKeywords ≠ [] then filterJunkListings items excludeKeywords
                  else items
    items1.filterMap (itemToPricePoint hashHex qp)
  match fetch.primary with
  | .ok items => .ok (convert items)
  | .err e1 =>
    if ebayAuthMarkers e1 then .error (.generic (ebayAuthWrap e1))
    else
      match fetch.fallback with
      | .ok items => .ok (convert items)
      | .err e2 =>
        if ebayAuthMarkers e2 then .error (.generic (ebayAuthWrap e2))
        else .error (.generic e1)

/-- Model of `EbayCollector._collect_impl` (ebay.py lines 303-461).  With a
falsy app id the call returns [] at once.  Otherwise the try body runs, and
every exception it raises, including the wrapped authentication failure
raised at line 357, is caught by the handlers at lines 456-461
(`except EbayConnectionError` and the blanket `except Exception`), both of
which return the empty list. -/
def collectImpl (hashHex : String → String) (appId : Option String)
    (fetch : FetchEnv) (qp : QueryParams) (excludeKeywords : List String) :
    List PricePoint :=
  match truthyStr appId with
  | none => []
  | some _ =>
    match collectImplTryBody hashHex fetch qp excludeKeywords with
    | .ok pts => pts
    | .error _ => []

/-! ## BaseCollector.collect (collectors/base.py lines 156-292) -/

/-- Model of `BaseCollector._get_cache_key` (base.py lines 172-190):
pipe-joined source id and stringified query fields, with missing fields
rendered as empty strings. -/
def getCacheKey (sourceId : Option String) (qp : QueryParams) : String :=
  let part : Option String → String := fun o => o.getD ""
  let iPart : Option ℤ → String := fun o => match o with
    | none => ""
    | some z => toString z
  joinWith "|"
    [sourceId.getD "unknown", iPart qp.year, part qp.mintmark,
     part qp.denomination, part qp.series, part qp.title]

/-- State touched by one `collect` call: the source row, the cache database
and the rate limiter. -/
structure CollectState where
  source : Option Source
  cache : Cache (List PricePoint)
  limiter : RateLimiter
deriving Repr, DecidableEq

/-- Model of `BaseCollector._update_circuit_breaker` over the optional
source row (base.py lines 204-236): a no-op without a source id or a
missing row. -/
def updateCircuitBreaker (sourceIdPresent : Bool) (row : Option Source)
    (success : Bool) (now : ℚ) : Option Source :=
  if sourceIdPresent = false then row
  else row.map (fun s => updateCircuitBreakerRow s success now)

/-- Model of `BaseCollector.collect` (base.py lines 238-279) at instant
`now`: circuit-breaker check (an open circuit returns the empty list and
changes nothing), cache lookup, rate limiting, `_collect_impl`, cache
store, circuit-breaker success update.  `_collect_impl` catches every
provider exception internally, so the failure branch of the breaker update
(base.py lines 276-279) is unreachable and `collect` never raises a
provider error. -/
def BaseCollectorCollect (hashHex : String → String) (cfg : Settings)
    (sourceId : Option String) (appId : Option String) (st : CollectState)
    (fetch : FetchEnv) (now : ℚ) (qp : QueryParams)
    (excludeKeywords : List String) : List PricePoint × CollectState :=
  let circuitClosed :=
    match sourceId with
    | none => true
    | some _ => checkSourceAvailable st.source now
  if circuitClosed = false then ([], st)
  else
    let cacheKey := getCacheKey sourceId qp
    let cached := if cfg.cacheEnabled then Cache.get cfg st.cache cacheKey now else none
    match cached with
    | some result => (result, st)
    | none =>
      let limiter1 := st.limiter.waitIfNeeded now
      let result := collectImpl hashHex appId fetch qp excludeKeywords
      let cache1 := if cfg.cacheEnabled then Cache.set cfg st.cache cacheKey result none now
                    else st.cache
      let source1 := updateCircuitBreaker sourceId.isSome st.source true now
      (result, { source := source1, cache := cache1, limiter := limiter1 })

/-! ## Worker (worker.py) -/

/-- Attribution row fields consumed by the worker (worker.py lines 146-194). -/
structure Attribution where
  year : Option ℤ := none
  mintmark : Option String := none
  denomination : Option String := none
  series : Option String := none
  title : Option String := none
  keywordsExclude : List String := []
  keywordsInclude : List String := []
deriving Repr, DecidableEq

/-- Row of the `source_rules` table (worker.py lines 149-153). -/
structure SourceRule where
  ruleType : String
  ruleValue : String
  active : Bool
deriving Repr, DecidableEq

/-- Job row fields consumed by `process_job` (worker.py lines 103-120). -/
structure Job where
  id : String
  jobType : String := "pricing"
  intakeId : String
  sourceId : String
deriving Repr, DecidableEq

/-- Database effects issued while processing one job.  `markRetryableIn`
is modelled from the spec: `mark_job_retryable_in` is imported and called
by worker.py (lines 14, 241, 308) but defined nowhere under src; per spec
section 6 it reschedules the job retryable after the given delay.
`markRetryableBackoff` models the `mark_job_retryable` RPC (db.py lines
135-149), whose store-side delay is `base_delay * 2 ^ retry_count`
(spec sections 4.7 and 8); the worker never invokes it. -/
inductive Effect
  | updateStatus (jobId : String) (status : String) (errMsg : Option String)
      (setsCompletedAt : Bool)
  | markRetryableIn (jobId : String) (delaySeconds : ℤ) (errMsg : String)
  | markRetryableBackoff (jobId : String) (baseDelayMinutes : ℤ)
  | disableSource (sourceId : String)
  | pauseSource (sourceId : String) (seconds : ℤ)
  | insertPricePoints (pts : List PricePoint)
  | upsertValuation (intakeId : String)
  | logEvent (jobId level message : String)
deriving Repr, DecidableEq

/-- Model of `update_job_status` (db.py lines 96-133): legacy statuses are
mapped (`completed` to `succeeded`, `cancelled` to `failed`) and
`completed_at` is set exactly for the terminal statuses. -/
def updateJobStatus (jobId status : String) (errMsg : Option String) : Effect :=
  let mapped := if status = "completed" then "succeeded"
                else if status = "cancelled" then "failed"
                else status
  .updateStatus jobId mapped errMsg (mapped = "succeeded" ∨ mapped = "failed")

/-- Transient-error heuristic of the generic exception handler
(worker.py lines 315-321). -/
def transientHeuristic (m : String) : Bool :=
  let ml := pyLower m
  strContains ml "timeout" || strContains ml "connection" ||
    strContains ml "temporary" || strContains ml "rate limit" ||
    strContains m "429"

/-- Authentication markers checked by the worker around the collect call
(worker.py lines 212-214). -/
def workerAuthMarkers (m : String) : Bool :=
  strContains m "Authentication failed" || strContains m "Invalid Application" ||
    strContains m "AppID"

/-- Wrapped message raised by the worker after disabling the source
(worker.py lines 220-223). -/
def workerAuthWrap (m : String) : String :=
  "eBay API authentication failed: " ++ m ++
    ". Please check your eBay App ID in the source configuration."

/-- Placeholder patterns rejected by `get_collector` (worker.py line 73). -/
def placeholderPatterns : List String :=
  ["your-ebay-app-id", "your-ebay-cert-id", "your-ebay-dev-id", "placeholder",
   "example"]

/-- Result of `get_collector` (worker.py lines 48-100). -/
inductive GetCollectorResult
  | collector (appId : String)
  | noCollector
  | raised (msg : String)
deriving Repr, DecidableEq

/-- Model of `get_collector` (worker.py lines 48-100): for the `ebay_api`
adapter the app id comes from the source config with the settings value as
fallback (Python `or`); a missing app id yields no collector, a placeholder
app id raises, and any other adapter type yields no collector. -/
def getCollector (src : Source) (cfg : Settings) : GetCollectorResult :=
  if src.adapterType = "ebay_api" then
    let appId := match truthyStr src.appId with
      | some a => some a
      | none => truthyStr cfg.ebayAppId
    match appId with
    | none => .noCollector
    | some a =>
      if placeholderPatterns.any (fun p => strContains (pyLower a) p) then
        .raised ("eBay App ID is set to a placeholder value (" ++ a ++
          "). Please update the source configuration with your real eBay API credentials.")
      else .collector a
  else .noCollector

/-- Keyword normalization for source-level rules (worker.py lines 150-155):
keep active `exclude_keywords` rule values, then trim and lower-case,
dropping values that are empty or whitespace-only. -/
def sourceExcludeKeywords (rules : List SourceRule) : List String :=
  (((rules.filter (fun r => r.ruleType = "exclude_keywords" ∧ r.active)).map
      (fun r => r.ruleValue)).filter
    (fun k => k ≠ "" ∧ pyStrip k ≠ "")).map (fun k => pyLower (pyStrip k))

/-- Keyword normalization for intake-level keywords (worker.py lines
158-169): drop falsy entries, then trim and lower-case. -/
def intakeKeywords (ks : List String) : List String :=
  (ks.filter (fun k => k ≠ "")).map (fun k => pyLower (pyStrip k))

/-- Merged exclude keywords (worker.py line 172): the union of source-level
and intake-level normalized keywords; Python builds it through a set, so
the model deduplicates (keyword order is irrelevant to the filter). -/
def mergedExcludeKeywords (rules : List SourceRule) (attribution : Option Attribution) :
    List String :=
  (sourceExcludeKeywords rules ++
    intakeKeywords ((attribution.map Attribution.keywordsExclude).getD [])).dedup

/-- Environment observed by one `process_job` run.  Each field is one
database read (the store is external mutable state): `source` is the
initial `get_source`, `sourceAfter` is the row as re-read by
`check_source_available` and `get_source_pause_until` after the collect
call, and `allPricePoints` is the non-filtered price point set fetched for
the valuation step.  `collectCall` is the outcome of the
`collector.collect` invocation. -/
structure ProcEnv where
  now : ℚ
  source : Option Source
  sourceAfter : Option Source
  attribution : Option Attribution
  rules : List SourceRule
  cfg : Settings
  collectCall : Except PyExc (List PricePoint)
  allPricePoints : List PricePoint
deriving Repr

/-- Message of the TypeError raised at worker.py line 279: the call
`engine.compute_valuation(all_price_points, attribution=attribution)`
passes a keyword argument that `ValuationEngine.compute_valuation`
(valuation.py line 198, signature `(self, price_points)`) does not accept,
so Python raises TypeError before the valuation body runs. -/
def computeValuationTypeErrorMsg : String :=
  "TypeError: compute_valuation() got an unexpected keyword argument attribution"

/-- Model of the call `engine.compute_valuation(all_price_points,
attribution=attribution)` (worker.py line 279) against the actual
signature `compute_valuation(self, price_points)` (valuation.py line 198):
the extra keyword argument makes the call itself raise TypeError. -/
def computeValuationCall (_pts : List PricePoint) (_attribution : Option Attribution) :
    Except PyExc Unit :=
  .error (.generic computeValuationTypeErrorMsg)

/-- Body of the `try` block of `process_job` (worker.py lines 134-302),
returning the effects issued so far plus the exception escaping the block,
if any. -/
def processBody (env : ProcEnv) (job : Job) : List Effect × Option PyExc :=
  match env.source with
  | none => ([], some (.generic ("Source not found: " ++ job.sourceId)))
  | some source =>
    if source.enabled = false then
      ([updateJobStatus job.id "failed" (some "Source is disabled")], none)
    else
      match getCollector source env.cfg with
      | .raised m => ([], some (.generic m))
      | .noCollector =>
        ([], some (.generic ("Failed to get collector for source: " ++ job.sourceId)))
      | .collector _ =>
        let effs0 := [Effect.logEvent job.id "info" "Starting collection"]
        match env.collectCall with
        | .error e =>
          if source.adapterType = "ebay_api" ∧ workerAuthMarkers e.msg then
            (effs0 ++ [.disableSource job.sourceId],
             some (.generic (workerAuthWrap e.msg)))
          else (effs0, some e)
        | .ok pts =>
          if pts = [] then
            if checkSourceAvailable env.sourceAfter env.now = false then
              let pausedUntil := env.sourceAfter.bind Source.pausedUntil
              let delayMsg : ℤ × String :=
                match pausedUntil with
                | some pu =>
                  (max 30 (pyTrunc (pu - env.now)),
                   "Source paused until " ++ toString pu)
                | none => (300, "Source unavailable (paused or disabled)")
              (effs0 ++ [.markRetryableIn job.id delayMsg.1 delayMsg.2], none)
            else
              (effs0 ++ [.logEvent job.id "warning" "No price points collected",
                updateJobStatus job.id "succeeded" none], none)
          else
            let effs1 := effs0 ++
              [.logEvent job.id "info"
                 ("Collected " ++ toString pts.length ++ " price points"),
               .insertPricePoints pts,
               .logEvent job.id "info" "Computing valuation"]
            match computeValuationCall env.allPricePoints env.attribution with
            | .error e => (effs1, some e)
            | .ok _ =>
              (effs1 ++ [.upsertValuation job.intakeId,
                .logEvent job.id "info" "Valuation computed",
                updateJobStatus job.id "succeeded" none], none)

/-- Model of `process_job` (worker.py lines 103-332): grading jobs are
skipped; the body runs and the two exception handlers append their effects.
The `EbayRateLimitError` handler (lines 304-309) pauses the source for 3600
seconds and reschedules the job with the same delay; the generic handler
(lines 310-325) classifies the message with the transient heuristic and
sets the status to `retryable` or `failed` through `update_job_status`. -/
def processJob (env : ProcEnv) (job : Job) : List Effect :=
  if job.jobType = "grading" then []
  else
    let res := processBody env job
    match res.2 with
    | none => res.1
    | some (.ebayRateLimit m) =>
      res.1 ++ [.pauseSource job.sourceId 3600, .markRetryableIn job.id 3600 m]
    | some (.generic m) =>
      let retryable := transientHeuristic m
      let status := if retryable then "retryable" else "failed"
      res.1 ++ [.logEvent job.id "error" ("Job " ++ status),
        updateJobStatus job.id status (some m)]

/-! ## Concrete fixtures used to evaluate the embedded code -/

/-- Enabled eBay source with a healthy credential and a clean failure
history. -/
def srcHealthy : Source :=
  { id := "s1", adapterType := "ebay_api", enabled := true, appId := some "PRODAPPID123" }

/-- Source row after one circuit-breaker success report at instant 0. -/
def srcHealthyAfterSuccess : Source :=
  { id := "s1", adapterType := "ebay_api", enabled := true,
    appId := some "PRODAPPID123", lastSuccessAt := some 0 }

/-- Provider behaviour raising an authentication failure on both API calls. -/
def authFetch : FetchEnv :=
  { primary := .err "Authentication failed. Invalid Application: bad app id",
    fallback := .err "Authentication failed. Invalid Application: bad app id" }

/-- Provider behaviour raising a rate-limit error on both API calls. -/
def rateLimitFetch : FetchEnv :=
  { primary := .err "Rate limit exceeded for application (error 10001)",
    fallback := .err "Rate limit exceeded for application (error 10001)" }

/-- Query parameters carrying only the job routing ids. -/
def qpPlain : QueryParams :=
  { intakeId := some "i1", sourceId := some "s1", jobId := some "j1" }

/-- Collect-call state: healthy source, empty cache, fresh limiter at 60
requests per minute constructed at instant 0. -/
def stHealthy : CollectState :=
  { source := some srcHealthy, cache := ⟨[]⟩, limiter := .init 60 0 }

/-- Placeholder digest primitive for the dedupe-key hash. -/
def hashFix : String → String := fun _ => "deadbeef"

/-- Pricing job fixture. -/
def jobFix : Job := { id := "j1", intakeId := "i1", sourceId := "s1" }

/-- Full collect run against a provider that raises an authentication
error. -/
def authCollectRun : List PricePoint × CollectState :=
  BaseCollectorCollect hashFix defaultSettings (some "s1") (some "PRODAPPID123")
    stHealthy authFetch 0 qpPlain []

/-- Worker environment observed when processing the job around
`authCollectRun`. -/
def authProcEnv : ProcEnv :=
  { now := 0, source := some srcHealthy, sourceAfter := some srcHealthyAfterSuccess,
    attribution := none, rules := [], cfg := defaultSettings,
    collectCall := .ok [], allPricePoints := [] }

/-- Full collect run against a provider that raises a rate-limit error. -/
def rateLimitCollectRun : List PricePoint × CollectState :=
  BaseCollectorCollect hashFix defaultSettings (some "s1") (some "PRODAPPID123")
    stHealthy rateLimitFetch 0 qpPlain []

/-- Sample collected price point used for the non-empty collection run. -/
def ppFix : PricePoint :=
  { sourceId := some "s1", intakeId := some "i1", jobId := some "j1",
    priceCents := 12500, priceType := "sold",
    listingUrl := "https://www.ebay.com/itm/1", listingTitle := "1921 S Morgan Dollar",
    matchStrength := 1, externalId := some "1", dedupeKey := "ext_1" }

/-- Worker environment observed when the collect call returned one listing. -/
def nonEmptyProcEnv : ProcEnv :=
  { now := 0, source := some srcHealthy, sourceAfter := some srcHealthyAfterSuccess,
    attribution := none, rules := [], cfg := defaultSettings,
    collectCall := .ok [ppFix], allPricePoints := [ppFix] }

/-- Paused-but-enabled source: the circuit breaker for it is open at any
instant before 1000. -/
def srcPausedFix : Source :=
  { id := "s1", adapterType := "ebay_api", enabled := true,
    appId := some "PRODAPPID123", pausedUntil := some 1000 }

/-- Provider behaviour returning an empty listing set. -/
def emptyOkFetch : FetchEnv := { primary := .ok [], fallback := .ok [] }

/-- Collect run with the circuit breaker open (paused source). -/
def openCircuitRun : List PricePoint × CollectState :=
  BaseCollectorCollect hashFix defaultSettings (some "s1") (some "PRODAPPID123")
    ⟨some srcPausedFix, ⟨[]⟩, .init 60 0⟩ emptyOkFetch 0 qpPlain []

/-- Collect run with an available source and a provider returning nothing. -/
def emptySuccessRun : List PricePoint × CollectState :=
  BaseCollectorCollect hashFix defaultSettings (some "s1") (some "PRODAPPID123")
    stHealthy emptyOkFetch 0 qpPlain []

/-- Worker environment whose collect call raised a transient-looking
exception. -/
def timeoutProcEnv : ProcEnv :=
  { now := 0, source := some srcHealthy, sourceAfter := some srcHealthy,
    attribution := none, rules := [], cfg := defaultSettings,
    collectCall := .error (.generic "Read timeout from provider"),
    allPricePoints := [] }

/-- Source fixture for the circuit-breaker scenario: enabled, clean
history. -/
def cbSrcFix : Source := { id := "s2", adapterType := "ebay_api", enabled := true }

/-- Application of a sequence of reported collection failures at the given
instants. -/
def failTimes (s : Source) : List ℚ → Source
  | [] => s
  | t :: ts => failTimes (updateCircuitBreakerRow s false t) ts

/-- Settings fixture with the cache disabled. -/
def disabledSettings : Settings :=
  { cacheEnabled := false, cacheTtlSeconds := 3600, ebayAppId := none }

/-- Listing fixtures from the end-to-end filtering scenario. -/
def exItem1 : EbayItem := { title := "1921 S Morgan Dollar PCGS MS64", priceValue := some 100 }

/-- Second listing fixture (title mentions a counterfeit). -/
def exItem2 : EbayItem := { title := "1921 Morgan Dollar Counterfeit", priceValue := some 100 }

/-- Third listing fixture (title mentions a fake). -/
def exItem3 : EbayItem := { title := "Fake Coin Reproduction", priceValue := some 100 }

/-! ## Claim theorems -/

/-- Claim C1, code evaluation at the failing input.  The claim states that a
provider authentication error makes the processor disable the source and
terminally fail the job.  In the code the wrapped authentication exception
raised at ebay.py line 357 is caught by the blanket handler at ebay.py line
459, so `_collect_impl` returns the empty list, `collect` records a
circuit-breaker success, and the worker marks the job succeeded with the
source still enabled: no `disableSource` and no failed status occur. -/
theorem c1_auth_error_swallowed_eval :
    collectImplTryBody hashFix authFetch qpPlain [] =
      .error (.generic (ebayAuthWrap
        "Authentication failed. Invalid Application: bad app id")) ∧
    authCollectRun.1 = [] ∧
    authCollectRun.2.source = some srcHealthyAfterSuccess ∧
    srcHealthyAfterSuccess.enabled = true ∧
    srcHealthyAfterSuccess.pausedUntil = none ∧
    processJob authProcEnv jobFix =
      [.logEvent "j1" "info" "Starting collection",
       .logEvent "j1" "warning" "No price points collected",
       .updateStatus "j1" "succeeded" none true] := by
  refine ⟨by rfl, ?_, ?_, by decide, by decide, by decide⟩
  · norm_num [authCollectRun, BaseCollectorCollect, collectImpl, collectImplTryBody,
      stHealthy, srcHealthy, authFetch, qpPlain, defaultSettings, checkSourceAvailable,
      Source.available, truthyStr, Cache.get, lookupValid]
    split <;> rfl
  · norm_num [authCollectRun, BaseCollectorCollect, collectImpl, collectImplTryBody,
      stHealthy, srcHealthy, srcHealthyAfterSuccess, authFetch, qpPlain, defaultSettings,
      checkSourceAvailable, Source.available, truthyStr, Cache.get, lookupValid,
      updateCircuitBreaker, updateCircuitBreakerRow, updateSourceStats]

/-- Claim C2, code evaluation at the failing input.  The claim states that a
non-empty collection leads to valuation computation, a valuation upsert and
a succeeded job.  The code calls
`engine.compute_valuation(all_price_points, attribution=attribution)`
(worker.py line 279) against the signature
`compute_valuation(self, price_points)` (valuation.py line 198), so the
call raises TypeError and the generic handler terminally fails the job: the
trace inserts the listings but contains no `upsertValuation` and ends with
a failed status. -/
theorem c2_valuation_typeerror_eval :
    processJob nonEmptyProcEnv jobFix =
      [.logEvent "j1" "info" "Starting collection",
       .logEvent "j1" "info" "Collected 1 price points",
       .insertPricePoints [ppFix],
       .logEvent "j1" "info" "Computing valuation",
       .logEvent "j1" "error" "Job failed",
       .updateStatus "j1" "failed" (some computeValuationTypeErrorMsg) true] ∧
    (processJob nonEmptyProcEnv jobFix).all
      (fun e => match e with
        | .upsertValuation _ => false
        | _ => true) = true ∧
    transientHeuristic computeValuationTypeErrorMsg = false := by
  refine ⟨by decide, by decide, by decide⟩

/-- Claim C3, code evaluation at the failing input.  The claim states that a
provider rate-limit signal pauses the source for 3600 seconds and
reschedules the job.  In the code `EbayRateLimitError` is imported
(worker.py line 16) but defined nowhere under src, nothing ever raises it,
and a provider rate-limit exception is caught inside `_collect_impl`
(ebay.py lines 459-461) and turned into an empty list, so the collect run
records a circuit-breaker success and the job is marked succeeded with no
pause and no reschedule. -/
theorem c3_rate_limit_swallowed_eval :
    collectImplTryBody hashFix rateLimitFetch qpPlain [] =
      .error (.generic "Rate limit exceeded for application (error 10001)") ∧
    rateLimitCollectRun.1 = [] ∧
    rateLimitCollectRun.2.source = some srcHealthyAfterSuccess ∧
    srcHealthyAfterSuccess.pausedUntil = none ∧
    processJob authProcEnv jobFix =
      [.logEvent "j1" "info" "Starting collection",
       .logEvent "j1" "warning" "No price points collected",
       .updateStatus "j1" "succeeded" none true] ∧
    (processJob authProcEnv jobFix).all
      (fun e => match e with
        | .pauseSource _ _ => false
        | .markRetryableIn _ _ _ => false
        | _ => true) = true := by
  refine ⟨by rfl, ?_, ?_, by decide, by decide, by decide⟩
  · norm_num [rateLimitCollectRun, BaseCollectorCollect, collectImpl, collectImplTryBody,
      stHealthy, srcHealthy, rateLimitFetch, qpPlain, defaultSettings, checkSourceAvailable,
      Source.available, truthyStr, Cache.get, lookupValid]
    split <;> rfl
  · norm_num [rateLimitCollectRun, BaseCollectorCollect, collectImpl, collectImplTryBody,
      stHealthy, srcHealthy, srcHealthyAfterSuccess, rateLimitFetch, qpPlain, defaultSettings,
      checkSourceAvailable, Source.available, truthyStr, Cache.get, lookupValid,
      updateCircuitBreaker, updateCircuitBreakerRow, updateSourceStats]

/-- Claim C4 counterexample.  The claim states that with an open circuit
breaker `collect` returns a distinct skipped signal rather than an empty
success.  In the code (base.py lines 248-251) the open-circuit branch
returns the plain empty list, which is exactly the value returned for an
empty success: the two outcomes are indistinguishable at the `collect`
boundary. -/
theorem c4_no_distinct_skip_signal :
    checkSourceAvailable (some srcPausedFix) 0 = false ∧
    openCircuitRun.1 = [] ∧
    emptySuccessRun.1 = [] ∧
    openCircuitRun.1 = emptySuccessRun.1 := by
  refine ⟨by decide, by decide, by decide, by decide⟩

/-- Claim C4 as amended: with an open circuit breaker `collect` returns the
plain empty list and leaves all state unchanged; the worker, seeing an
empty result and re-checking availability, reschedules the job retryable
with delay `max 30 (floor of remaining pause)` instead of marking it
succeeded. -/
theorem c4_open_circuit_reschedules (hashHex : String → String) (cfg : Settings)
    (sid : String) (appId : Option String) (cache : Cache (List PricePoint))
    (lim : RateLimiter) (fetch : FetchEnv) (qp : QueryParams) (excl : List String)
    (src : Source) (pu now : ℚ) (a : String) (job : Job)
    (attr : Option Attribution) (rules : List SourceRule) (pts : List PricePoint)
    (hen : src.enabled = true) (hpu : src.pausedUntil = some pu) (hlt : now < pu)
    (hjob : job.jobType = "pricing")
    (hcol : getCollector src cfg = .collector a) :
    BaseCollectorCollect hashHex cfg (some sid) appId ⟨some src, cache, lim⟩
        fetch now qp excl = ([], ⟨some src, cache, lim⟩) ∧
    processJob
      { now := now, source := some src, sourceAfter := some src, attribution := attr,
        rules := rules, cfg := cfg,
        collectCall := .ok (BaseCollectorCollect hashHex cfg (some sid) appId
          ⟨some src, cache, lim⟩ fetch now qp excl).1,
        allPricePoints := pts } job =
      [.logEvent job.id "info" "Starting collection",
       .markRetryableIn job.id (max 30 (pyTrunc (pu - now)))
         ("Source paused until " ++ toString pu)] := by
  have havail : checkSourceAvailable (some src) now = false := by
    simp [checkSourceAvailable, Source.available, hpu, hlt]
  have hrun : BaseCollectorCollect hashHex cfg (some sid) appId ⟨some src, cache, lim⟩
      fetch now qp excl = ([], ⟨some src, cache, lim⟩) := by
    simp [BaseCollectorCollect, havail]
  refine ⟨hrun, ?_⟩
  rw [hrun]
  simp [processJob, processBody, hjob, hen, hcol, havail, hpu]

/-- Claim C4 witness: the amended theorem applied to the paused fixture
source at instant 0, with 1000 seconds of pause remaining. -/
theorem c4_open_circuit_reschedules_witness :
    processJob
      { now := 0, source := some srcPausedFix, sourceAfter := some srcPausedFix,
        attribution := none, rules := [], cfg := defaultSettings,
        collectCall := .ok openCircuitRun.1, allPricePoints := [] } jobFix =
      [.logEvent "j1" "info" "Starting collection",
       .markRetryableIn "j1" (max 30 (pyTrunc (1000 - 0)))
         ("Source paused until " ++ toString (1000 : ℚ))] := by
  have h := c4_open_circuit_reschedules hashFix defaultSettings "s1"
    (some "PRODAPPID123") ⟨[]⟩ (.init 60 0) emptyOkFetch qpPlain [] srcPausedFix
    1000 0 "PRODAPPID123" jobFix none [] []
    (by decide) (by decide) (by norm_num) (by decide) (by decide)
  exact h.2

/-- Claim C5 counterexample.  The claim states that a transient-classified
exception reschedules the job retryable with exponential backoff delay
`base_delay * 2 ^ retry_count`.  In the code (worker.py lines 310-325) the
handler only calls `update_job_status(job_id, "retryable", msg)`: the trace
contains a bare status flip and no retry-scheduling effect of either kind,
so no backoff delay is computed in this path. -/
theorem c5_no_backoff_on_transient :
    transientHeuristic "Read timeout from provider" = true ∧
    processJob timeoutProcEnv jobFix =
      [.logEvent "j1" "info" "Starting collection",
       .logEvent "j1" "error" "Job retryable",
       .updateStatus "j1" "retryable" (some "Read timeout from provider") false] ∧
    (processJob timeoutProcEnv jobFix).all
      (fun e => match e with
        | .markRetryableIn _ _ _ => false
        | .markRetryableBackoff _ _ => false
        | _ => true) = true := by
  refine ⟨by decide, by decide, by decide⟩

/-- Claim C5 as amended: an exception (other than the typed rate-limit
class) raised by the collect call is classified by the transient heuristic;
a matching message sets the job status to `retryable` with the error text
recorded (no retry delay is scheduled in this path), and any other message
terminally fails the job with the error text. -/
theorem c5_transient_classification (env : ProcEnv) (job : Job) (src : Source)
    (msg : String) (a : String)
    (hjob : job.jobType = "pricing")
    (hsrc : env.source = some src)
    (hen : src.enabled = true)
    (hcol : getCollector src env.cfg = .collector a)
    (hcall : env.collectCall = .error (.generic msg))
    (hnotauth : ¬(src.adapterType = "ebay_api" ∧ workerAuthMarkers msg = true)) :
    processJob env job =
      [.logEvent job.id "info" "Starting collection",
       .logEvent job.id "error"
         ("Job " ++ (if transientHeuristic msg then "retryable" else "failed")),
       updateJobStatus job.id
         (if transientHeuristic msg then "retryable" else "failed") (some msg)] := by
  by_cases ht : transientHeuristic msg = true
  · simp [processJob, processBody, hjob, hsrc, hen, hcol, hcall, hnotauth, PyExc.msg, ht]
  · simp [processJob, processBody, hjob, hsrc, hen, hcol, hcall, hnotauth, PyExc.msg, ht]

/-- Claim C5 witness: the amended theorem applied to a concrete transient
message. -/
theorem c5_transient_classification_witness :
    processJob timeoutProcEnv jobFix =
      [.logEvent "j1" "info" "Starting collection",
       .logEvent "j1" "error"
         ("Job " ++ (if transientHeuristic "Read timeout from provider"
           then "retryable" else "failed")),
       updateJobStatus "j1"
         (if transientHeuristic "Read timeout from provider" then "retryable" else "failed")
         (some "Read timeout from provider")] := by
  exact c5_transient_classification timeoutProcEnv jobFix srcHealthy
    "Read timeout from provider" "PRODAPPID123"
    (by decide) (by decide) (by decide) (by decide) (by rfl) (by decide)

/-- Claim C6 counterexample.  The claim states that one reported success
after the threshold is crossed resets the streak to 0, clears the pause and
restores availability immediately.  In the code `update_source_stats`
(db.py lines 327-336) resets the streak on success but never touches
`paused_until`, so after five failures at instant 0 and one success the
source still carries `paused_until = 300` and remains unavailable at
instant 1. -/
theorem c6_success_does_not_clear_pause :
    (updateCircuitBreakerRow (failTimes cbSrcFix [0, 0, 0, 0, 0]) true 0).failureStreak
        = 0 ∧
    (updateCircuitBreakerRow (failTimes cbSrcFix [0, 0, 0, 0, 0]) true 0).pausedUntil
        = some 300 ∧
    Source.available (updateCircuitBreakerRow (failTimes cbSrcFix [0, 0, 0, 0, 0]) true 0) 1
        = false := by
  refine ⟨?_, ?_, ?_⟩ <;>
    norm_num [failTimes, cbSrcFix, updateCircuitBreakerRow, updateSourceStats,
      circuitBreakerFailureThreshold, circuitBreakerCooldownSeconds, Source.available]

/-- Claim C6 as amended: starting from an enabled source with a clean
streak and no pause, four reported failures leave the source available;
the fifth sets `paused_until = t5 + 300` and makes it unavailable until
that instant; one subsequent reported success resets the streak to 0 but
leaves `paused_until` in place, so availability returns only once the
pause has elapsed, not immediately. -/
theorem c6_threshold_and_success_reset (s0 : Source) (t1 t2 t3 t4 t5 t6 : ℚ)
    (hen : s0.enabled = true) (hstreak : s0.failureStreak = 0)
    (hpause : s0.pausedUntil = none) :
    (failTimes s0 [t1, t2, t3, t4]).failureStreak = 4 ∧
    (failTimes s0 [t1, t2, t3, t4]).pausedUntil = none ∧
    (∀ tq : ℚ, (failTimes s0 [t1, t2, t3, t4]).available tq = true) ∧
    (failTimes s0 [t1, t2, t3, t4, t5]).failureStreak = 5 ∧
    (failTimes s0 [t1, t2, t3, t4, t5]).pausedUntil = some (t5 + 300) ∧
    (∀ tq : ℚ, tq < t5 + 300 →
      (failTimes s0 [t1, t2, t3, t4, t5]).available tq = false) ∧
    (updateCircuitBreakerRow (failTimes s0 [t1, t2, t3, t4, t5]) true t6).failureStreak
        = 0 ∧
    (updateCircuitBreakerRow (failTimes s0 [t1, t2, t3, t4, t5]) true t6).pausedUntil
        = some (t5 + 300) ∧
    (∀ tq : ℚ, tq < t5 + 300 →
      (updateCircuitBreakerRow (failTimes s0 [t1, t2, t3, t4, t5]) true t6).available tq
        = false) ∧
    (∀ tq : ℚ, t5 + 300 ≤ tq →
      (updateCircuitBreakerRow (failTimes s0 [t1, t2, t3, t4, t5]) true t6).available tq
        = true) := by
  have h4 : failTimes s0 [t1, t2, t3, t4] =
      { s0 with lastFailureAt := some t4, failureStreak := 4 } := by
    simp [failTimes, updateCircuitBreakerRow, updateSourceStats,
      circuitBreakerFailureThreshold, hstreak]
  have h5 : failTimes s0 [t1, t2, t3, t4, t5] =
      { s0 with lastFailureAt := some t5, failureStreak := 5,
                pausedUntil := some (t5 + 300) } := by
    simp [failTimes, updateCircuitBreakerRow, updateSourceStats,
      circuitBreakerFailureThreshold, circuitBreakerCooldownSeconds, hstreak]
  have h6 : updateCircuitBreakerRow (failTimes s0 [t1, t2, t3, t4, t5]) true t6 =
      { s0 with lastFailureAt := some t5, failureStreak := 0,
                pausedUntil := some (t5 + 300), lastSuccessAt := some t6 } := by
    rw [h5]
    simp [updateCircuitBreakerRow, updateSourceStats]
  refine ⟨?_, ?_, ?_, ?_, ?_, ?_, ?_, ?_, ?_, ?_⟩
  · rw [h4]
  · rw [h4]; simp [hpause]
  · intro tq; rw [h4]; simp [Source.available, hpause, hen]
  · rw [h5]
  · rw [h5]
  · intro tq htq; rw [h5]; simp [Source.available, htq]
  · rw [h6]
  · rw [h6]
  · intro tq htq; rw [h6]; simp [Source.available, htq]
  · intro tq htq; rw [h6]; simp [Source.available, hen, not_lt.mpr htq]

/-- Claim C6 witness: the amended theorem applied to the fixture source
with all failures at instant 0 and the success at instant 1. -/
theorem c6_threshold_and_success_reset_witness :
    (failTimes cbSrcFix [0, 0, 0, 0]).failureStreak = 4 ∧
    (failTimes cbSrcFix [0, 0, 0, 0, 0]).pausedUntil = some (0 + 300) ∧
    (updateCircuitBreakerRow (failTimes cbSrcFix [0, 0, 0, 0, 0]) true 1).failureStreak
        = 0 ∧
    (updateCircuitBreakerRow (failTimes cbSrcFix [0, 0, 0, 0, 0]) true 1).available 1
        = false ∧
    (updateCircuitBreakerRow (failTimes cbSrcFix [0, 0, 0, 0, 0]) true 1).available 300
        = true := by
  have h := c6_threshold_and_success_reset cbSrcFix 0 0 0 0 0 1
    (by decide) (by decide) (by decide)
  exact ⟨h.1, h.2.2.2.2.1, h.2.2.2.2.2.2.1,
    h.2.2.2.2.2.2.2.2.1 1 (by norm_num),
    h.2.2.2.2.2.2.2.2.2 300 (by norm_num)⟩

/-- Claim C8: `_collect_impl` never propagates an exception.  Whenever the
body of its try block raises (any provider failure, including the wrapped
authentication failure it raises itself), the function returns the empty
list; consequently `collect` records a circuit-breaker success (streak
reset, success stamped), stores the empty result in the cache when caching
is enabled, and returns a normal empty result. -/
theorem c8_collect_impl_never_raises (hashHex : String → String)
    (appId : Option String) (a : String) (fetch : FetchEnv) (qp : QueryParams)
    (excl : List String) (exc : PyExc) (cfg : Settings) (src : Source)
    (cache : Cache (List PricePoint)) (lim : RateLimiter) (now : ℚ) (sid : String)
    (happ : truthyStr appId = some a)
    (herr : collectImplTryBody hashHex fetch qp excl = .error exc)
    (havail : src.available now = true)
    (hmiss : Cache.get cfg cache (getCacheKey (some sid) qp) now = none) :
    collectImpl hashHex appId fetch qp excl = [] ∧
    (BaseCollectorCollect hashHex cfg (some sid) appId ⟨some src, cache, lim⟩
        fetch now qp excl).1 = [] ∧
    (BaseCollectorCollect hashHex cfg (some sid) appId ⟨some src, cache, lim⟩
        fetch now qp excl).2.source =
      some { src with failureStreak := 0, lastSuccessAt := some now } ∧
    (BaseCollectorCollect hashHex cfg (some sid) appId ⟨some src, cache, lim⟩
        fetch now qp excl).2.cache =
      (if cfg.cacheEnabled then
        Cache.set cfg cache (getCacheKey (some sid) qp) [] none now
      else cache) := by
  have himpl : collectImpl hashHex appId fetch qp excl = [] := by
    simp [collectImpl, happ, herr]
  have hclosed : checkSourceAvailable (some src) now = true := by
    simpa [checkSourceAvailable] using havail
  refine ⟨himpl, ?_, ?_, ?_⟩ <;>
    cases hc : cfg.cacheEnabled <;>
      simp [BaseCollectorCollect, hclosed, hc, hmiss, himpl, updateCircuitBreaker,
        updateCircuitBreakerRow, updateSourceStats]

/-- Claim C8 witness: the theorem applied to the authentication-failure
fixture with an available source and an empty cache. -/
theorem c8_collect_impl_never_raises_witness :
    collectImpl hashFix (some "PRODAPPID123") authFetch qpPlain [] = [] ∧
    (BaseCollectorCollect hashFix defaultSettings (some "s1") (some "PRODAPPID123")
        stHealthy authFetch 0 qpPlain []).1 = [] ∧
    (BaseCollectorCollect hashFix defaultSettings (some "s1") (some "PRODAPPID123")
        stHealthy authFetch 0 qpPlain []).2.source =
      some { srcHealthy with failureStreak := 0, lastSuccessAt := some 0 } ∧
    (BaseCollectorCollect hashFix defaultSettings (some "s1") (some "PRODAPPID123")
        stHealthy authFetch 0 qpPlain []).2.cache =
      (if defaultSettings.cacheEnabled then
        Cache.set defaultSettings ⟨[]⟩ (getCacheKey (some "s1") qpPlain) [] none 0
      else ⟨[]⟩) := by
  exact c8_collect_impl_never_raises hashFix (some "PRODAPPID123") "PRODAPPID123"
    authFetch qpPlain []
    (.generic (ebayAuthWrap "Authentication failed. Invalid Application: bad app id"))
    defaultSettings srcHealthy ⟨[]⟩ (.init 60 0) 0 "s1"
    (by decide) (by rfl) (by decide) (by decide)

/-- Claim C9 counterexample.  The claim quantifies over every TTL `t`; for
`t = 0` the Python expression `ttl_seconds or settings.cache_ttl_seconds`
treats the argument as falsy and substitutes the configured default
(3600s), so a value set with ttl 0 is still returned at instant 1 although
its claimed expiry (set time + 0) has already passed. -/
theorem c9_zero_ttl_uses_default :
    Cache.get defaultSettings
        (Cache.set defaultSettings (⟨[]⟩ : Cache String) "k" "v" (some 0) 0) "k" 1 =
      some "v" ∧
    (0 : ℚ) + ((0 : ℤ) : ℚ) < 1 := by
  constructor
  · norm_num [Cache.get, Cache.set, lookupValid, defaultSettings]
  · norm_num

/-- Lookup misses on every row whose key was filtered away. -/
theorem lookupValid_filtered_none {α : Type} (k : String) (now : ℚ)
    (l : List (String × α × ℚ)) :
    lookupValid k now (l.filter (fun e => k ≠ e.1)) = none := by
  induction l with
  | nil => rfl
  | cons e es ih =>
    by_cases he : k = e.1
    · simpa [List.filter_cons, he] using ih
    · simpa [List.filter_cons, lookupValid, he] using ih

/-- Claim C9 as amended: for every positive ttl `t`, a value set under a
key is returned by `get` exactly while `now < set time + t` and is absent
once that expiry has passed; when the cache is disabled by configuration,
`get` always returns absent and `set` is a no-op. -/
theorem c9_cache_ttl_and_disabled (α : Type) (cfg : Settings) (c : Cache α)
    (k : String) (v : α) (t : ℤ) (ttlArg : Option ℤ) (s now : ℚ)
    (k2 : String) (v2 : α) :
    (cfg.cacheEnabled = true → 0 < t →
      Cache.get cfg (Cache.set cfg c k v (some t) s) k now =
        if now < s + (t : ℚ) then some v else none) ∧
    (cfg.cacheEnabled = false →
      Cache.get cfg c k now = none ∧ Cache.set cfg c k2 v2 ttlArg s = c) := by
  constructor
  · intro hen ht
    have htne : t ≠ 0 := by omega
    by_cases hnow : now < s + (t : ℚ)
    · simp [Cache.set, Cache.get, lookupValid, hen, htne, hnow]
    · have h0 := lookupValid_filtered_none k now c.entries
      simp [Cache.set, Cache.get, lookupValid, hen, htne, hnow]
      simpa using h0
  · intro hdis
    refine ⟨?_, ?_⟩ <;> simp [Cache.get, Cache.set, hdis]

/-- Claim C9 witness: the amended theorem applied with ttl 5 and a query
inside the validity window, plus the disabled-cache clauses. -/
theorem c9_cache_ttl_and_disabled_witness :
    Cache.get defaultSettings
        (Cache.set defaultSettings (⟨[]⟩ : Cache String) "k" "v" (some 5) 0) "k" 3 =
      (if (3 : ℚ) < 0 + ((5 : ℤ) : ℚ) then some "v" else none) ∧
    Cache.get disabledSettings (⟨[("k", "v", 100)]⟩ : Cache String) "k" 3 = none ∧
    Cache.set disabledSettings (⟨[("k", "v", 100)]⟩ : Cache String) "k2" "v2" none 0 =
      ⟨[("k", "v", 100)]⟩ := by
  refine ⟨(c9_cache_ttl_and_disabled String defaultSettings ⟨[]⟩ "k" "v" 5 none 0 3
      "k2" "v2").1 (by decide) (by norm_num), ?_, ?_⟩
  · exact ((c9_cache_ttl_and_disabled String disabledSettings ⟨[("k", "v", 100)]⟩
      "k" "v" 5 none 0 3 "k2" "v2").2 (by decide)).1
  · exact ((c9_cache_ttl_and_disabled String disabledSettings ⟨[("k", "v", 100)]⟩
      "k" "v" 5 none 0 3 "k2" "v2").2 (by decide)).2

/-- Normalization is the identity on keyword lists that are already
normalized (non-empty, trimmed, lower-cased). -/
theorem normalizedKeywordsId (kws : List String)
    (hn : ∀ k ∈ kws, k ≠ "" ∧ pyLower (pyStrip k) = k) :
    (kws.filter (fun k => k ≠ "")).map (fun k => pyLower (pyStrip k)) = kws := by
  induction kws with
  | nil => rfl
  | cons k ks ih =>
    have hk := hn k (List.mem_cons_self k ks)
    have hks := ih (fun a ha => hn a (List.mem_cons_of_mem k ha))
    simpa [List.filter_cons, hk.1, hk.2] using hks

/-- Claim C10: for normalized exclude keywords the junk filter keeps
exactly those listings whose lower-cased title contains none of the
keywords as a substring; on the end-to-end fixture titles with keywords
counterfeit and fake, exactly the first listing survives. -/
theorem c10_keyword_exclusion_filter :
    (∀ (items : List EbayItem) (kws : List String),
      (∀ k ∈ kws, k ≠ "" ∧ pyLower (pyStrip k) = k) →
      filterJunkListings items kws =
        items.filter
          (fun it => !(kws.any (fun k => strContains (pyLower it.title) k)))) ∧
    filterJunkListings [exItem1, exItem2, exItem3] ["counterfeit", "fake"] =
      [exItem1] := by
  constructor
  · intro items kws hn
    by_cases hkws : kws = []
    · subst hkws
      simp [filterJunkListings]
    · rw [filterJunkListings, if_neg hkws, normalizedKeywordsId kws hn, if_neg hkws]
  · decide

/-- Claim C10 witness: the filter characterization applied to the fixture
listings and keywords. -/
theorem c10_keyword_exclusion_filter_witness :
    filterJunkListings [exItem1, exItem2, exItem3] ["counterfeit", "fake"] =
      [exItem1, exItem2, exItem3].filter
        (fun it =>
          !(["counterfeit", "fake"].any (fun k => strContains (pyLower it.title) k))) := by
  exact c10_keyword_exclusion_filter.1 [exItem1, exItem2, exItem3]
    ["counterfeit", "fake"] (by decide)

/-- Refill preserves the configured rate. -/
theorem refillAt_rate (l : RateLimiter) (now : ℚ) :
    (l.refillAt now).ratePerMinute = l.ratePerMinute := by
  unfold RateLimiter.refillAt
  split <;> rfl

/-- Refill moves the refill stamp to the current instant. -/
theorem refillAt_lastRefill (l : RateLimiter) (now : ℚ) :
    (l.refillAt now).lastRefill = now := by
  unfold RateLimiter.refillAt
  split <;> rfl

/-- Refill clamps the token count at the configured capacity. -/
theorem refillAt_tokens_le_rate (l : RateLimiter) (now : ℚ) :
    (l.refillAt now).tokens ≤ (l.ratePerMinute : ℚ) := by
  unfold RateLimiter.refillAt
  split
  · simp
  · exact min_le_left _ _

/-- Refill keeps the token count non-negative when the clock has not run
backwards. -/
theorem refillAt_tokens_nonneg (l : RateLimiter) (now : ℚ)
    (h0 : 0 ≤ l.tokens) (hle : l.lastRefill ≤ now) :
    0 ≤ (l.refillAt now).tokens := by
  unfold RateLimiter.refillAt
  split
  · simp
  · refine le_min (by positivity) (add_nonneg h0 ?_)
    have hs : 0 ≤ now - l.lastRefill := sub_nonneg.mpr hle
    positivity

/-- Refill adds at most the continuous refill amount for the elapsed time:
both the clamped branch and the full reset stay under
`tokens + rate * elapsed / 60`. -/
theorem refillAt_tokens_upper (l : RateLimiter) (now : ℚ)
    (h0 : 0 ≤ l.tokens) :
    (l.refillAt now).tokens ≤
      l.tokens + (l.ratePerMinute : ℚ) * (now - l.lastRefill) / 60 := by
  have hr : (0 : ℚ) ≤ (l.ratePerMinute : ℚ) := Nat.cast_nonneg _
  unfold RateLimiter.refillAt
  split
  · rename_i h
    have h2 : (l.ratePerMinute : ℚ) * 60 ≤ (l.ratePerMinute : ℚ) * (now - l.lastRefill) :=
      mul_le_mul_of_nonneg_left h hr
    simp only
    linarith
  · calc min ((l.ratePerMinute : ℚ)) (l.tokens + (now - l.lastRefill) / 60 * l.ratePerMinute)
        ≤ l.tokens + (now - l.lastRefill) / 60 * l.ratePerMinute := min_le_right _ _
      _ = l.tokens + (l.ratePerMinute : ℚ) * (now - l.lastRefill) / 60 := by ring

/-- Acquire preserves the configured rate. -/
theorem acquire_rate (l : RateLimiter) (now : ℚ) :
    ((l.acquire now).2).ratePerMinute = l.ratePerMinute := by
  unfold RateLimiter.acquire
  split <;> simp [refillAt_rate]

/-- Acquire moves the refill stamp to the current instant. -/
theorem acquire_lastRefill (l : RateLimiter) (now : ℚ) :
    ((l.acquire now).2).lastRefill = now := by
  unfold RateLimiter.acquire
  split <;> simp [refillAt_lastRefill]

/-- Acquire never leaves more than the configured capacity in the bucket. -/
theorem acquire_tokens_le_rate (l : RateLimiter) (now : ℚ) :
    ((l.acquire now).2).tokens ≤ (((l.acquire now).2).ratePerMinute : ℚ) := by
  rw [acquire_rate]
  have hcap := refillAt_tokens_le_rate l now
  unfold RateLimiter.acquire
  split
  · simp only
    linarith
  · exact hcap

/-- Acquire keeps the token count non-negative when the clock has not run
backwards. -/
theorem acquire_tokens_nonneg (l : RateLimiter) (now : ℚ)
    (h0 : 0 ≤ l.tokens) (hle : l.lastRefill ≤ now) :
    0 ≤ ((l.acquire now).2).tokens := by
  have hn := refillAt_tokens_nonneg l now h0 hle
  unfold RateLimiter.acquire
  split
  · rename_i h
    simp only
    linarith
  · exact hn

/-- Token accounting of one acquire call: the spent token (when the call
succeeds) plus the remaining tokens equal the refilled amount. -/
theorem acquire_spend (l : RateLimiter) (now : ℚ) :
    ((l.acquire now).2).tokens + (if (l.acquire now).1 then (1 : ℚ) else 0) =
      (l.refillAt now).tokens := by
  unfold RateLimiter.acquire
  split <;> simp

/-- Unfolding equation for `run` on a cons cell. -/
theorem run_cons (l : RateLimiter) (t : ℚ) (ts : List ℚ) :
    l.run (t :: ts) =
      ((t, (l.acquire t).1) :: (((l.acquire t).2).run ts).1,
       (((l.acquire t).2).run ts).2) := by
  rfl

/-- Success count across a cons cell. -/
theorem countSucc_cons (t : ℚ) (ok : Bool) (rest : List (ℚ × Bool)) :
    countSucc ((t, ok) :: rest) = (if ok = true then 1 else 0) + countSucc rest := by
  cases ok <;> simp [countSucc, List.filter_cons, Nat.add_comm]

/-- Accounting bound for a monotone call sequence: the number of successful
acquires is at most the starting token count plus the continuous refill
accumulated up to the bound instant `b`. -/
theorem run_countSucc_bound (ts : List ℚ) : ∀ (l : RateLimiter) (b : ℚ),
    0 ≤ l.tokens → timesMono l.lastRefill ts → (∀ t ∈ ts, t ≤ b) →
    l.lastRefill ≤ b →
    (countSucc (l.run ts).1 : ℚ) ≤
      l.tokens + (l.ratePerMinute : ℚ) * (b - l.lastRefill) / 60 := by
  induction ts with
  | nil =>
    intro l b h0 _ _ hlb
    have hbl : 0 ≤ b - l.lastRefill := sub_nonneg.mpr hlb
    have hpos : 0 ≤ (l.ratePerMinute : ℚ) * (b - l.lastRefill) / 60 := by positivity
    simp [RateLimiter.run, countSucc]
    linarith
  | cons t ts ih =>
    intro l b h0 hmono hmem hlb
    obtain ⟨hlt, hmono2⟩ := hmono
    have htb : t ≤ b := hmem t (by simp)
    have hmem2 : ∀ x ∈ ts, x ≤ b := fun x hx => hmem x (by simp [hx])
    have hlr : ((l.acquire t).2).lastRefill = t := acquire_lastRefill l t
    have hrate : ((l.acquire t).2).ratePerMinute = l.ratePerMinute := acquire_rate l t
    have h0' : 0 ≤ ((l.acquire t).2).tokens := acquire_tokens_nonneg l t h0 hlt
    have hih := ih ((l.acquire t).2) b h0' (by rw [hlr]; exact hmono2) hmem2
      (by rw [hlr]; exact htb)
    rw [hlr, hrate] at hih
    have hspend := acquire_spend l t
    have hupper := refillAt_tokens_upper l t h0
    have hkey : (l.ratePerMinute : ℚ) * (t - l.lastRefill) / 60 +
        (l.ratePerMinute : ℚ) * (b - t) / 60 =
        (l.ratePerMinute : ℚ) * (b - l.lastRefill) / 60 := by ring
    rw [run_cons, countSucc_cons]
    by_cases hok : (l.acquire t).1 = true
    · simp only [hok, if_true] at hspend ⊢
      push_cast
      linarith
    · simp [hok] at hspend ⊢
      linarith

/-- Every state reached by a sequence of acquire calls respects the
capacity bound. -/
theorem runStates_tokens_le (ts : List ℚ) : ∀ (l : RateLimiter),
    ∀ s ∈ l.runStates ts, s.tokens ≤ (s.ratePerMinute : ℚ) := by
  induction ts with
  | nil => intro l s hs; simp [RateLimiter.runStates] at hs
  | cons t ts ih =>
    intro l s hs
    simp only [RateLimiter.runStates, List.mem_cons] at hs
    rcases hs with h | h
    · subst h; exact acquire_tokens_le_rate l t
    · exact ih _ s h

/-- Success bound over one rolling window: all calls lie in `[a, a + 60)`
and the starting state is valid, so at most `2 * rate` acquires succeed
(one full bucket plus at most one window worth of refill). -/
theorem window_bound (l : RateLimiter) (ts : List ℚ) (a : ℚ)
    (h0 : 0 ≤ l.tokens) (hmono : timesMono l.lastRefill ts)
    (hwin : ∀ t ∈ ts, a ≤ t ∧ t < a + 60) :
    countSucc (l.run ts).1 ≤ 2 * l.ratePerMinute := by
  cases ts with
  | nil => simp [RateLimiter.run, countSucc]
  | cons t ts =>
    obtain ⟨hlt, hmono2⟩ := hmono
    obtain ⟨hat, htw⟩ := hwin t (by simp)
    have h0' := acquire_tokens_nonneg l t h0 hlt
    have hlr := acquire_lastRefill l t
    have hrate := acquire_rate l t
    have hmem2 : ∀ x ∈ ts, x ≤ t + 60 := by
      intro x hx
      have hw := hwin x (by simp [hx])
      linarith [hw.1, hw.2]
    have hih := run_countSucc_bound ts ((l.acquire t).2) (t + 60) h0'
      (by rw [hlr]; exact hmono2) hmem2 (by rw [hlr]; linarith)
    rw [hlr, hrate] at hih
    have hsimp : (l.ratePerMinute : ℚ) * (t + 60 - t) / 60 = (l.ratePerMinute : ℚ) := by
      ring
    rw [hsimp] at hih
    have hspend := acquire_spend l t
    have hrefillCap := refillAt_tokens_le_rate l t
    have hq : ((countSucc (l.run (t :: ts)).1 : ℕ) : ℚ) ≤ 2 * (l.ratePerMinute : ℚ) := by
      rw [run_cons, countSucc_cons]
      by_cases hok : (l.acquire t).1 = true
      · simp only [hok, if_true] at hspend ⊢
        push_cast
        linarith
      · simp [hok] at hspend ⊢
        linarith
    exact_mod_cast hq

/-- Claim C7 counterexample.  The claim bounds successful acquires in any
rolling 60-second window by the configured rate R.  A limiter at 2 per
minute constructed at instant 0 grants acquires at instants 0, 0 and 30:
three successes inside the single window `[0, 60)`, exceeding R = 2 (the
initial full bucket plus continuous refill allow up to 2R in a window). -/
theorem c7_window_exceeds_rate :
    countSucc ((RateLimiter.init 2 0).run [0, 0, 30]).1 = 3 ∧
    2 < 3 ∧
    timesMono (RateLimiter.init 2 0).lastRefill [0, 0, 30] ∧
    (∀ t ∈ [(0 : ℚ), 0, 30], 0 ≤ t ∧ t < 0 + 60) := by
  refine ⟨?_, by norm_num, ?_, ?_⟩
  · norm_num [RateLimiter.run, RateLimiter.acquire, RateLimiter.refillAt,
      RateLimiter.init, countSucc]
  · norm_num [timesMono, RateLimiter.init]
  · intro t ht
    simp only [List.mem_cons, List.mem_singleton, List.not_mem_nil, or_false] at ht
    rcases ht with h | h | h <;> subst h <;> norm_num

/-- Claim C7 as amended: the token count of every state reached by acquire
calls never exceeds the configured capacity R, and over any rolling
60-second window the number of successful acquire calls is at most 2R (the
bucket can start full and refill a full additional minute of tokens inside
the window). -/
theorem c7_capacity_and_window_bound :
    (∀ (l : RateLimiter) (ts : List ℚ), ∀ s ∈ l.runStates ts,
        s.tokens ≤ (s.ratePerMinute : ℚ)) ∧
    (∀ (l : RateLimiter) (ts : List ℚ) (a : ℚ),
        0 ≤ l.tokens → timesMono l.lastRefill ts →
        (∀ t ∈ ts, a ≤ t ∧ t < a + 60) →
        countSucc (l.run ts).1 ≤ 2 * l.ratePerMinute) :=
  ⟨fun l ts => runStates_tokens_le ts l, window_bound⟩

/-- Claim C7 witness: the amended theorem applied to the fixture limiter at
2 per minute with calls at instants 0, 0 and 30 inside the window
`[0, 60)`. -/
theorem c7_capacity_and_window_bound_witness :
    (∀ s ∈ (RateLimiter.init 2 0).runStates [0, 0, 30],
        s.tokens ≤ (s.ratePerMinute : ℚ)) ∧
    countSucc ((RateLimiter.init 2 0).run [0, 0, 30]).1 ≤ 2 * 2 := by
  constructor
  · exact c7_capacity_and_window_bound.1 (RateLimiter.init 2 0) [0, 0, 30]
  · exact c7_capacity_and_window_bound.2 (RateLimiter.init 2 0) [0, 0, 30] 0
      (by norm_num [RateLimiter.init])
      (by norm_num [timesMono, RateLimiter.init])
      (by
        intro t ht
        simp only [List.mem_cons, List.mem_singleton, List.not_mem_nil, or_false] at ht
        rcases ht with h | h | h <;> subst h <;> norm_num)

end Coin
